import Mathlib

/-!
Shallow embedding of the request-tracing layer of
`rust-axum-opentelemetry-otlp`, covering the span factory, the response
classifier, the trace-context propagation, and the tracer-provider
shutdown lifecycle, together with theorems settling the specification
claims about them.

Source files embedded:
- `src/telemetry/src/trace_layer.rs` (namespace `TraceLayer`)
- `src/telemetry/src/lib.rs` (namespace `TelemetryLib`, span factory only)
- `src/src/main.rs` (the inline `on_response` closure)
-/

namespace Otel

/-- Attribute values recorded on a span: strings or (status-code) numbers. -/
inductive AttrValue where
  | str (s : String)
  | nat (n : Nat)
deriving DecidableEq, Repr

/-- Span kinds used by the layer (`opentelemetry::trace::SpanKind`,
restricted to the two kinds `trace_layer` can produce). -/
inductive SpanKind where
  | server
  | client
deriving DecidableEq, Repr

/-- A position in a distributed trace, as parsed from a `traceparent`
header (`trace_id` is 128-bit, `span_id` 64-bit, `trace_flags` one byte;
widths are invariants of the parser, carried here as plain `Nat`). -/
structure SpanContext where
  traceId : Nat
  spanId : Nat
  traceFlags : Nat
  isRemote : Bool
deriving DecidableEq, Repr

/-- A `tracing` span as configured by this layer: a name, a kind, the
declared attribute slots (a slot holds `none` while `Empty`, i.e. declared
but unrecorded), the optional remote parent link, and the trace id the
span belongs to. -/
structure Span where
  name : String
  kind : SpanKind
  attrs : List (String × Option AttrValue)
  parent : Option SpanContext
  traceId : Nat
deriving DecidableEq, Repr

/-- Attribute key `opentelemetry_semantic_conventions::attribute::OTEL_STATUS_CODE`. -/
def OTEL_STATUS_CODE : String := "otel.status_code"

/-- Attribute key `opentelemetry_semantic_conventions::trace::HTTP_REQUEST_METHOD`. -/
def HTTP_REQUEST_METHOD : String := "http.request.method"

/-- Attribute key `opentelemetry_semantic_conventions::trace::HTTP_RESPONSE_STATUS_CODE`. -/
def HTTP_RESPONSE_STATUS_CODE : String := "http.response.status_code"

/-- Attribute key `opentelemetry_semantic_conventions::trace::HTTP_ROUTE`. -/
def HTTP_ROUTE : String := "http.route"

/-- Attribute key `opentelemetry_semantic_conventions::trace::NETWORK_PROTOCOL_VERSION`. -/
def NETWORK_PROTOCOL_VERSION : String := "network.protocol.version"

/-- Attribute key `opentelemetry_semantic_conventions::trace::URL_FULL`. -/
def URL_FULL : String := "url.full"

/-- Attribute key `opentelemetry_semantic_conventions::trace::USER_AGENT_ORIGINAL`. -/
def USER_AGENT_ORIGINAL : String := "user_agent.original"

/-- The request metadata `make_span` reads from an `axum::http::Request`:
method, the path component of the URI, the full URI rendering, the
protocol version, the header map, and the `MatchedPath` extension
(`none` when the router matched no route). -/
structure HttpRequest where
  method : String
  path : String
  uriFull : String
  version : String
  headers : List (String × String)
  matchedPath : Option String
deriving DecidableEq, Repr

/-- Case-insensitive string comparison of header names. -/
def eqCaseInsensitive (a b : String) : Bool :=
  a.toList.map Char.toLower == b.toList.map Char.toLower

/-- Case-insensitive header lookup, as `http::HeaderMap::get` behaves
(header names are matched ignoring ASCII case). -/
def getHeader (headers : List (String × String)) (key : String) : Option String :=
  (headers.find? (fun p => eqCaseInsensitive p.1 key)).map Prod.snd

/-- Hex digit test for `traceparent` fields. -/
def isHexChar (c : Char) : Bool :=
  c.isDigit || (('a' ≤ c) && (c ≤ 'f')) || (('A' ≤ c) && (c ≤ 'F'))

/-- Numeric value of one hex digit. -/
def hexDigitVal (c : Char) : Nat :=
  if c.isDigit then c.toNat - '0'.toNat
  else if ('a' ≤ c) && (c ≤ 'f') then c.toNat - 'a'.toNat + 10
  else if ('A' ≤ c) && (c ≤ 'F') then c.toNat - 'A'.toNat + 10
  else 0

/-- Value of a hex string (big-endian), e.g. of a 32-hex-char trace id. -/
def hexToNat (s : String) : Nat :=
  s.toList.foldl (fun acc c => acc * 16 + hexDigitVal c) 0

/-- All characters of a string are hex digits. -/
def isHexString (s : String) : Bool :=
  s.toList.all isHexChar

/-- Split a character list at every occurrence of `sep` (the list analogue
of splitting the header value on the dash delimiter). -/
def splitOnChar (sep : Char) : List Char → List (List Char)
  | [] => [[]]
  | c :: cs =>
    let rest := splitOnChar sep cs
    if c = sep then
      [] :: rest
    else
      match rest with
      | [] => [[c]]
      | r :: rs => (c :: r) :: rs

/-- Modelled from the spec: the W3C trace-context text-format parser.
The parser itself lives in the external `opentelemetry_sdk` crate
(`TraceContextPropagator`), not in this repository; the spec describes it
as parsing "a single request header carrying `trace-id`, `parent-span-id`,
and `trace-flags` in a fixed, colon/dash-delimited text encoding (the
standard W3C-style trace-context header)", with "malformed or absent
header → returns no context (not an error)".  A header value is
syntactically valid when it has the shape
`version(2 hex)-traceid(32 hex)-spanid(16 hex)-flags(2 hex)` with
version not `ff` and trace id and span id nonzero. -/
def parseTraceparent (value : String) : Option SpanContext :=
  match splitOnChar '-' value.toList with
  | [ver, tid, sid, flg] =>
    if ver.length = 2 && ver.all isHexChar && ver ≠ ['f', 'f']
        && tid.length = 32 && tid.all isHexChar
        && sid.length = 16 && sid.all isHexChar
        && flg.length = 2 && flg.all isHexChar
        && hexToNat ⟨tid⟩ ≠ 0 && hexToNat ⟨sid⟩ ≠ 0 then
      some { traceId := hexToNat ⟨tid⟩, spanId := hexToNat ⟨sid⟩,
             traceFlags := hexToNat ⟨flg⟩, isRemote := true }
    else
      none
  | _ => none

/-- Modelled from the spec: `Propagator.extract(carrier)`, the call made by
`make_span` through `global::get_text_map_propagator` with a
`HeaderExtractor` over the request headers.  Returns the remote span
context carried by a syntactically valid `traceparent` header, and `none`
("no context", not an error) when the header is absent or malformed. -/
def extract (headers : List (String × String)) : Option SpanContext :=
  (getHeader headers "traceparent").bind parseTraceparent

/-- User-agent read in `make_span`:
`request.headers().get(USER_AGENT).and_then(|h| h.to_str().ok()).unwrap_or_default()`,
i.e. the `user-agent` header value, or the empty string when absent. -/
def userAgent (request : HttpRequest) : String :=
  (getHeader request.headers "user-agent").getD ""

end Otel

namespace TraceLayer

open Otel

/-- Embedding of `OtelMakeSpan::make_span` from `src/telemetry/src/trace_layer.rs`
(lines 33-81).  `freshTraceId` stands for the trace id the tracer
generates when the span starts a new trace; when a valid remote context
was extracted, `span.set_parent(parent_cx)` makes the span continue that
trace instead. -/
def makeSpan (spanKind : SpanKind) (freshTraceId : Nat) (request : HttpRequest) : Span :=
  match spanKind with
  | .server =>
    let parentCx := extract request.headers
    let pathTemplate := request.matchedPath.getD "{unknown}"
    let span : Span :=
      { name := request.method ++ " " ++ pathTemplate
        kind := .server
        attrs :=
          [ (OTEL_STATUS_CODE, none),
            (HTTP_REQUEST_METHOD, some (.str request.method)),
            (HTTP_RESPONSE_STATUS_CODE, none),
            (HTTP_ROUTE, some (.str request.path)),
            (URL_FULL, some (.str request.path)),
            (NETWORK_PROTOCOL_VERSION, some (.str request.version)),
            (USER_AGENT_ORIGINAL, some (.str (userAgent request))) ]
        parent := none
        traceId := freshTraceId }
    match parentCx with
    | some cx => { span with parent := some cx, traceId := cx.traceId }
    | none => span
  | .client =>
    { name := request.method
      kind := .client
      attrs :=
        [ (URL_FULL, some (.str request.uriFull)),
          (OTEL_STATUS_CODE, none),
          (HTTP_REQUEST_METHOD, some (.str request.method)),
          (HTTP_RESPONSE_STATUS_CODE, none),
          (NETWORK_PROTOCOL_VERSION, some (.str request.version)) ]
      parent := none
      traceId := freshTraceId }

/-- Embedding of `tracing::Span::record(key, value)`: writes `value` into the attribute
slot `key` if the span declared that slot, and does nothing otherwise
(recording an undeclared field is a no-op in `tracing`); it never adds a
slot. -/
def record (span : Span) (key : String) (value : AttrValue) : Span :=
  { span with
    attrs := span.attrs.map (fun p => if p.1 = key then (p.1, some value) else p) }

/-- Embedding of `OtelOnResponse::on_response` from `src/telemetry/src/trace_layer.rs`
(lines 102-109): classifies the status code strictly by `< 300` and
records both the classification and the raw status code. -/
def onResponse (statusCode : Nat) (span : Span) : Span :=
  let is_failure := if statusCode < 300 then "ok" else "error"
  (record (record span OTEL_STATUS_CODE (.str is_failure))
    HTTP_RESPONSE_STATUS_CODE (.nat statusCode))

/-- Embedding of `OtelOnFailure::on_failure` from `src/telemetry/src/trace_layer.rs`
(lines 111-117): unconditionally records the classification "error" and
touches nothing else. -/
def onFailure (span : Span) : Span :=
  record span OTEL_STATUS_CODE (.str "error")

/-- The `()` on-request stage installed by `trace_layer`
(`.on_request(())`, line 145): the unit callback does nothing to the
request, so in particular no trace-context header is injected into an
outbound request (the injection code at lines 84-98 is commented out). -/
def onRequestUnit (request : HttpRequest) (_span : Span) : HttpRequest :=
  request

end TraceLayer

namespace TelemetryLib

open Otel

/-- Embedding of `OtelMakeSpan::make_span` from `src/telemetry/src/lib.rs` (lines
33-75), the sibling implementation: identical to the `trace_layer.rs`
server branch except that it records neither a `url.full` nor a
`user_agent.original` attribute on Server-kind spans. -/
def makeSpan (spanKind : SpanKind) (freshTraceId : Nat) (request : HttpRequest) : Span :=
  match spanKind with
  | .server =>
    let parentCx := extract request.headers
    let pathTemplate := request.matchedPath.getD "{unknown}"
    let span : Span :=
      { name := request.method ++ " " ++ pathTemplate
        kind := .server
        attrs :=
          [ (OTEL_STATUS_CODE, none),
            (HTTP_REQUEST_METHOD, some (.str request.method)),
            (HTTP_RESPONSE_STATUS_CODE, none),
            (HTTP_ROUTE, some (.str request.path)),
            (NETWORK_PROTOCOL_VERSION, some (.str request.version)) ]
        parent := none
        traceId := freshTraceId }
    match parentCx with
    | some cx => { span with parent := some cx, traceId := cx.traceId }
    | none => span
  | .client =>
    { name := request.method
      kind := .client
      attrs :=
        [ (URL_FULL, some (.str request.uriFull)),
          (OTEL_STATUS_CODE, none),
          (HTTP_REQUEST_METHOD, some (.str request.method)),
          (HTTP_RESPONSE_STATUS_CODE, none),
          (NETWORK_PROTOCOL_VERSION, some (.str request.version)) ]
      parent := none
      traceId := freshTraceId }

end TelemetryLib

namespace MainRs

open Otel TraceLayer

/-- The inline `on_response` closure in `src/src/main.rs` (lines 97-100):
unlike `OtelOnResponse::on_response`, it records the classification "ok"
unconditionally, then the raw status code. -/
def onResponseClosure (statusCode : Nat) (span : Span) : Span :=
  record (record span OTEL_STATUS_CODE (.str "ok"))
    HTTP_RESPONSE_STATUS_CODE (.nat statusCode)

end MainRs

namespace Lifecycle

open Otel

/-- The observable state of the tracer-provider lifecycle: the closed
spans buffered in the batching stage and the spans already handed to the
export sink. -/
structure ProviderState where
  pending : List Span
  exported : List Span
deriving DecidableEq, Repr

/-- Modelled from the spec: scope exit "closes the span and enqueues it
for export" — a closed span is handed to the batching queue. -/
def closeSpan (st : ProviderState) (s : Span) : ProviderState :=
  { st with pending := st.pending ++ [s] }

/-- Modelled from the spec: `opentelemetry::global::shutdown_tracer_provider`
(external `opentelemetry` crate, not in this repository), the call made by
`TracingGuard::drop`; per the spec it "must synchronously drain and flush
the batching stage before returning, so that spans created moments before
shutdown are not silently lost". -/
def shutdownTracerProvider (st : ProviderState) : ProviderState :=
  { pending := [], exported := st.exported ++ st.pending }

/-- Embedding of `TracingGuard::drop` from `src/telemetry/src/lib.rs` (lines 184-189):
dropping the guard returned by `init_tracing` calls
`shutdown_tracer_provider`. -/
def tracingGuardDrop (st : ProviderState) : ProviderState :=
  shutdownTracerProvider st

end Lifecycle

namespace TraceLayer

open Otel

theorem attrs_record (s : Span) (k : String) (v : AttrValue) :
    (record s k v).attrs = s.attrs.map (fun p => if p.1 = k then (p.1, some v) else p) :=
  rfl

theorem lookup_update_self (l : List (String × Option AttrValue)) (k : String) (v : AttrValue) :
    List.lookup k (l.map fun p => if p.1 = k then (p.1, some v) else p)
      = (List.lookup k l).map (fun _ => some v) := by
  induction l with
  | nil => rfl
  | cons p l ih =>
    obtain ⟨a, b⟩ := p
    by_cases h : a = k
    · subst h
      simp [List.lookup_cons, ih]
    · have hb : (k == a) = false := by
        simp only [beq_eq_false_iff_ne, ne_eq]
        exact fun e => h e.symm
      simp [List.lookup_cons, if_neg h, hb, ih]

theorem lookup_update_ne (l : List (String × Option AttrValue)) (k k' : String)
    (v : AttrValue) (hne : k' ≠ k) :
    List.lookup k' (l.map fun p => if p.1 = k then (p.1, some v) else p)
      = List.lookup k' l := by
  induction l with
  | nil => rfl
  | cons p l ih =>
    obtain ⟨a, b⟩ := p
    by_cases h : a = k
    · subst h
      have hb : (k' == a) = false := by
        simp only [beq_eq_false_iff_ne, ne_eq]
        exact hne
      simp [List.lookup_cons, hb, ih]
    · by_cases h2 : k' = a
      · subst h2
        simp [List.lookup_cons, if_neg h]
      · have hb : (k' == a) = false := by
          simp only [beq_eq_false_iff_ne, ne_eq]
          exact h2
        simp [List.lookup_cons, if_neg h, hb, ih]

theorem keys_update (l : List (String × Option AttrValue)) (k : String) (v : AttrValue) :
    (l.map fun p => if p.1 = k then (p.1, some v) else p).map Prod.fst
      = l.map Prod.fst := by
  induction l with
  | nil => rfl
  | cons p l ih =>
    obtain ⟨a, b⟩ := p
    by_cases h : a = k
    · subst h
      simp [ih]
    · simp [if_neg h, ih]

theorem update_update_self (l : List (String × Option AttrValue)) (k : String)
    (v w : AttrValue) :
    ((l.map fun p => if p.1 = k then (p.1, some v) else p).map
        fun p => if p.1 = k then (p.1, some w) else p)
      = l.map fun p => if p.1 = k then (p.1, some w) else p := by
  induction l with
  | nil => rfl
  | cons p l ih =>
    obtain ⟨a, b⟩ := p
    by_cases h : a = k
    · subst h
      simp [ih]
    · simp [if_neg h, ih]

theorem update_update_comm (l : List (String × Option AttrValue)) (k k' : String)
    (v w : AttrValue) (hne : k ≠ k') :
    ((l.map fun p => if p.1 = k then (p.1, some v) else p).map
        fun p => if p.1 = k' then (p.1, some w) else p)
      = (l.map fun p => if p.1 = k' then (p.1, some w) else p).map
          fun p => if p.1 = k then (p.1, some v) else p := by
  induction l with
  | nil => rfl
  | cons p l ih =>
    obtain ⟨a, b⟩ := p
    by_cases h : a = k
    · subst h
      have h2 : ¬ a = k' := hne
      simp [if_neg h2, ih]
    · by_cases h2 : a = k'
      · subst h2
        simp [if_neg h, ih]
      · simp [if_neg h, if_neg h2, ih]

theorem attrs_makeSpan_server (freshTraceId : Nat) (request : HttpRequest) :
    (makeSpan .server freshTraceId request).attrs
      = [ (OTEL_STATUS_CODE, none),
          (HTTP_REQUEST_METHOD, some (.str request.method)),
          (HTTP_RESPONSE_STATUS_CODE, none),
          (HTTP_ROUTE, some (.str request.path)),
          (URL_FULL, some (.str request.path)),
          (NETWORK_PROTOCOL_VERSION, some (.str request.version)),
          (USER_AGENT_ORIGINAL, some (.str (userAgent request))) ] := by
  cases h : extract request.headers <;> simp [makeSpan, h]

theorem attrs_makeSpan_client (freshTraceId : Nat) (request : HttpRequest) :
    (makeSpan .client freshTraceId request).attrs
      = [ (URL_FULL, some (.str request.uriFull)),
          (OTEL_STATUS_CODE, none),
          (HTTP_REQUEST_METHOD, some (.str request.method)),
          (HTTP_RESPONSE_STATUS_CODE, none),
          (NETWORK_PROTOCOL_VERSION, some (.str request.version)) ] :=
  rfl

end TraceLayer

namespace TraceLayer

open Otel

theorem attrs_onResponse (c : Nat) (span : Span) :
    (onResponse c span).attrs
      = (span.attrs.map fun p =>
          if p.1 = OTEL_STATUS_CODE
          then (p.1, some (AttrValue.str (if c < 300 then "ok" else "error"))) else p).map
          fun p => if p.1 = HTTP_RESPONSE_STATUS_CODE then (p.1, some (AttrValue.nat c)) else p :=
  rfl

theorem attrs_onFailure (span : Span) :
    (onFailure span).attrs
      = span.attrs.map fun p =>
          if p.1 = OTEL_STATUS_CODE then (p.1, some (AttrValue.str "error")) else p :=
  rfl

end TraceLayer

namespace TelemetryLib

open Otel

theorem lib_attrs_makeSpan_server (freshTraceId : Nat) (request : HttpRequest) :
    (makeSpan .server freshTraceId request).attrs
      = [ (OTEL_STATUS_CODE, none),
          (HTTP_REQUEST_METHOD, some (.str request.method)),
          (HTTP_RESPONSE_STATUS_CODE, none),
          (HTTP_ROUTE, some (.str request.path)),
          (NETWORK_PROTOCOL_VERSION, some (.str request.version)) ] := by
  cases h : extract request.headers <;> simp [makeSpan, h]

end TelemetryLib

open Otel TraceLayer

/-- Request carrying a syntactically valid `traceparent` header, matched
to the route template of `/hello/world`. -/
def reqWithTraceparent : HttpRequest :=
  { method := "GET"
    path := "/hello/world"
    uriFull := "/hello/world"
    version := "HTTP/1.1"
    headers := [("accept", "*/*"),
                ("traceparent", "00-0af7651916cd43dd8448eb211c80319c-b7ad6b7169203331-01")]
    matchedPath := some "/{name}" }

/-- The span context carried by `reqWithTraceparent`'s header. -/
def ctxOfHeader : SpanContext :=
  { traceId := hexToNat "0af7651916cd43dd8448eb211c80319c"
    spanId := hexToNat "b7ad6b7169203331"
    traceFlags := 1
    isRemote := true }

/-- Request whose `traceparent` header is malformed and that matched no
route. -/
def reqMalformedHeader : HttpRequest :=
  { method := "GET"
    path := "/does-not-exist"
    uriFull := "/does-not-exist"
    version := "HTTP/1.1"
    headers := [("traceparent", "not-a-valid-header")]
    matchedPath := none }

/-- C1: for every HTTP response with status code `c` handed to
`OtelOnResponse::on_response`, the status-classification attribute
recorded on the span is "ok" if `c < 300` and "error" if `c >= 300`
(so every 3xx, e.g. 304, is classified "error"), and the raw status
code `c` is also recorded on the span. -/
theorem onResponse_classifies_by_300 (spanKind : SpanKind) (freshTraceId : Nat)
    (request : HttpRequest) (c : Nat) :
    List.lookup OTEL_STATUS_CODE
        (onResponse c (makeSpan spanKind freshTraceId request)).attrs
      = some (some (.str (if c < 300 then "ok" else "error")))
    ∧ List.lookup HTTP_RESPONSE_STATUS_CODE
        (onResponse c (makeSpan spanKind freshTraceId request)).attrs
      = some (some (.nat c)) := by
  constructor
  · rw [attrs_onResponse, lookup_update_ne _ _ _ _ (by decide), lookup_update_self]
    cases spanKind
    · rw [attrs_makeSpan_server]
      rfl
    · rw [attrs_makeSpan_client]
      rfl
  · rw [attrs_onResponse, lookup_update_self, lookup_update_ne _ _ _ _ (by decide)]
    cases spanKind
    · rw [attrs_makeSpan_server]
      rfl
    · rw [attrs_makeSpan_client]
      rfl

/-- C2: for every inbound request carrying a syntactically valid
trace-context header (i.e. extraction yields a remote context `cx`), the
Server-kind span created by `make_span` has its parent set to `cx`, and
the span's trace id equals the trace id carried in the header. -/
theorem makeSpan_valid_traceparent_sets_parent (freshTraceId : Nat)
    (request : HttpRequest) (cx : SpanContext)
    (h : extract request.headers = some cx) :
    (makeSpan .server freshTraceId request).parent = some cx
    ∧ (makeSpan .server freshTraceId request).traceId = cx.traceId := by
  constructor <;> simp [makeSpan, h]

/-- Witness for C2: a concrete request whose `traceparent` header is
`00-0af7651916cd43dd8448eb211c80319c-b7ad6b7169203331-01`; extraction
yields the header's context and the created span adopts its trace id. -/
theorem makeSpan_valid_traceparent_sets_parent_witness :
    extract reqWithTraceparent.headers = some ctxOfHeader
    ∧ ctxOfHeader.traceId = hexToNat "0af7651916cd43dd8448eb211c80319c"
    ∧ ((makeSpan .server 7 reqWithTraceparent).parent = some ctxOfHeader
       ∧ (makeSpan .server 7 reqWithTraceparent).traceId = ctxOfHeader.traceId) :=
  ⟨by decide, rfl,
   makeSpan_valid_traceparent_sets_parent 7 reqWithTraceparent ctxOfHeader (by decide)⟩

/-- C3: for every inbound request whose trace-context header is absent or
malformed, extraction yields no remote context (it is total, not an
error), and the Server-kind span created by `make_span` has the freshly
generated trace id and no parent link. -/
theorem makeSpan_no_context_fresh_trace (freshTraceId : Nat)
    (request : HttpRequest) (h : extract request.headers = none) :
    (makeSpan .server freshTraceId request).parent = none
    ∧ (makeSpan .server freshTraceId request).traceId = freshTraceId := by
  constructor <;> simp [makeSpan, h]

/-- Witness for C3: a concrete request with a malformed `traceparent`
header value extracts to no context, and its span starts a fresh trace
with no parent. -/
theorem makeSpan_no_context_fresh_trace_witness :
    extract reqMalformedHeader.headers = none
    ∧ ((makeSpan .server 42 reqMalformedHeader).parent = none
       ∧ (makeSpan .server 42 reqMalformedHeader).traceId = 42) :=
  ⟨by decide, makeSpan_no_context_fresh_trace 42 reqMalformedHeader (by decide)⟩

/-- C4: for every Server-kind request, the span's display name is
`method ++ " " ++ route_template`, where the template slot is the matched
route template when one matched and the fixed sentinel `"{unknown}"`
otherwise — never the raw request path. -/
theorem makeSpan_server_name (freshTraceId : Nat) (request : HttpRequest) :
    (makeSpan .server freshTraceId request).name
      = request.method ++ " " ++ request.matchedPath.getD "{unknown}" := by
  cases h : extract request.headers <;> simp [makeSpan, h]

/-- Attribute keys C5 claims to be exactly the ones `make_span` populates
on a Server-kind span (stated from the claim, to be compared with the
code). -/
def c5ClaimedKeys : List String :=
  [HTTP_REQUEST_METHOD, HTTP_ROUTE, NETWORK_PROTOCOL_VERSION,
   USER_AGENT_ORIGINAL, OTEL_STATUS_CODE, HTTP_RESPONSE_STATUS_CODE]

/-- Counterexample for C5: on the concrete request `GET /hello/world`,
the Server-kind span additionally populates the `url.full` attribute
(with the raw path), a key outside the claim's "exactly these" set, so
the claim as stated is false. -/
theorem makeSpan_server_attrs_exact_cex :
    List.lookup URL_FULL (makeSpan .server 0 reqWithTraceparent).attrs
      = some (some (.str "/hello/world"))
    ∧ c5ClaimedKeys.contains URL_FULL = false := by
  constructor
  · rw [attrs_makeSpan_server]
    rfl
  · decide

/-- C5 (amended): for every Server-kind request, `make_span` populates
exactly these attributes at span creation: the request method; the route
attribute set to the raw request path; the protocol version; the user
agent, recorded as the empty string when the header is absent; the
status-code and status-classification attributes initialized empty; and
additionally a full-URL attribute, also set to the raw request path. -/
theorem makeSpan_server_attrs_amended (freshTraceId : Nat) (request : HttpRequest) :
    ((makeSpan .server freshTraceId request).attrs.map Prod.fst
        = [OTEL_STATUS_CODE, HTTP_REQUEST_METHOD, HTTP_RESPONSE_STATUS_CODE,
           HTTP_ROUTE, URL_FULL, NETWORK_PROTOCOL_VERSION, USER_AGENT_ORIGINAL])
    ∧ List.lookup HTTP_REQUEST_METHOD (makeSpan .server freshTraceId request).attrs
        = some (some (.str request.method))
    ∧ List.lookup HTTP_ROUTE (makeSpan .server freshTraceId request).attrs
        = some (some (.str request.path))
    ∧ List.lookup NETWORK_PROTOCOL_VERSION (makeSpan .server freshTraceId request).attrs
        = some (some (.str request.version))
    ∧ List.lookup USER_AGENT_ORIGINAL (makeSpan .server freshTraceId request).attrs
        = some (some (.str ((getHeader request.headers "user-agent").getD "")))
    ∧ List.lookup OTEL_STATUS_CODE (makeSpan .server freshTraceId request).attrs
        = some none
    ∧ List.lookup HTTP_RESPONSE_STATUS_CODE (makeSpan .server freshTraceId request).attrs
        = some none
    ∧ List.lookup URL_FULL (makeSpan .server freshTraceId request).attrs
        = some (some (.str request.path)) := by
  rw [attrs_makeSpan_server]
  exact ⟨rfl, rfl, rfl, rfl, rfl, rfl, rfl, rfl⟩

/-- C6: whenever the handler produces no response, `on_failure`
unconditionally records the status-classification attribute as "error",
records no status code (the slot stays as it was, so on a freshly created
span it remains empty), regardless of the span's prior state. -/
theorem onFailure_records_error_only (spanKind : SpanKind) (freshTraceId : Nat)
    (request : HttpRequest) (span : Span) :
    List.lookup OTEL_STATUS_CODE
        (onFailure (makeSpan spanKind freshTraceId request)).attrs
      = some (some (.str "error"))
    ∧ List.lookup HTTP_RESPONSE_STATUS_CODE
        (onFailure (makeSpan spanKind freshTraceId request)).attrs
      = some none
    ∧ List.lookup HTTP_RESPONSE_STATUS_CODE (onFailure span).attrs
      = List.lookup HTTP_RESPONSE_STATUS_CODE span.attrs := by
  refine ⟨?_, ?_, ?_⟩
  · rw [attrs_onFailure, lookup_update_self]
    cases spanKind
    · rw [attrs_makeSpan_server]
      rfl
    · rw [attrs_makeSpan_client]
      rfl
  · rw [attrs_onFailure, lookup_update_ne _ _ _ _ (by decide)]
    cases spanKind
    · rw [attrs_makeSpan_server]
      rfl
    · rw [attrs_makeSpan_client]
      rfl
  · rw [attrs_onFailure, lookup_update_ne _ _ _ _ (by decide)]

/-- C7: for every Client-kind request, `make_span` produces a span whose
name is the request method alone, whose recorded attributes are the full
target URL, the method and the protocol version (plus the two empty
status slots), with no route attribute; no trace-context extraction
happens (the parent is always absent and the trace id is the fresh one,
whatever the headers carry), and the on-request stage (`()`) leaves the
outbound request untouched, injecting nothing. -/
theorem makeSpan_client_shape (freshTraceId : Nat) (request : HttpRequest) :
    (makeSpan .client freshTraceId request).name = request.method
    ∧ (makeSpan .client freshTraceId request).attrs.map Prod.fst
        = [URL_FULL, OTEL_STATUS_CODE, HTTP_REQUEST_METHOD,
           HTTP_RESPONSE_STATUS_CODE, NETWORK_PROTOCOL_VERSION]
    ∧ List.lookup URL_FULL (makeSpan .client freshTraceId request).attrs
        = some (some (.str request.uriFull))
    ∧ List.lookup HTTP_REQUEST_METHOD (makeSpan .client freshTraceId request).attrs
        = some (some (.str request.method))
    ∧ List.lookup NETWORK_PROTOCOL_VERSION (makeSpan .client freshTraceId request).attrs
        = some (some (.str request.version))
    ∧ List.lookup HTTP_ROUTE (makeSpan .client freshTraceId request).attrs = none
    ∧ (makeSpan .client freshTraceId request).parent = none
    ∧ (makeSpan .client freshTraceId request).traceId = freshTraceId
    ∧ onRequestUnit request (makeSpan .client freshTraceId request) = request :=
  ⟨rfl, rfl, rfl, rfl, rfl, rfl, rfl, rfl, rfl⟩

/-- C8: releasing the shutdown guard (`TracingGuard::drop`, on any
control-flow exit path) drains and flushes the batching export stage, so
after release every span closed before the release — whether still
pending in the batching queue or already exported — has been handed to
the export sink, and the queue is empty. -/
theorem tracingGuard_drop_flushes (st : Lifecycle.ProviderState) (s : Span)
    (h : s ∈ st.pending ∨ s ∈ st.exported) :
    s ∈ (Lifecycle.tracingGuardDrop st).exported
    ∧ (Lifecycle.tracingGuardDrop st).pending = [] := by
  constructor
  · simp only [Lifecycle.tracingGuardDrop, Lifecycle.shutdownTracerProvider,
      List.mem_append]
    exact h.symm
  · rfl

/-- Example closed span for the lifecycle witness. -/
def exSpan : Span := makeSpan .client 3 reqMalformedHeader

/-- Example provider state: one span closed and still pending in the
batching stage, nothing exported yet. -/
def exProviderState : Lifecycle.ProviderState :=
  { pending := [exSpan], exported := [] }

/-- Witness for C8: dropping the guard on a state with one pending span
hands that span to the export sink and empties the queue. -/
theorem tracingGuard_drop_flushes_witness :
    (exSpan ∈ exProviderState.pending ∨ exSpan ∈ exProviderState.exported)
    ∧ (exSpan ∈ (Lifecycle.tracingGuardDrop exProviderState).exported
       ∧ (Lifecycle.tracingGuardDrop exProviderState).pending = []) :=
  ⟨Or.inl (List.mem_singleton.mpr rfl),
   tracingGuard_drop_flushes exProviderState exSpan (Or.inl (List.mem_singleton.mpr rfl))⟩

/-- C9: `on_response` and `on_failure` are idempotent — applying either
twice with the same arguments equals applying it once — and both only
write into already-allocated attribute slots (the key set is unchanged)
and never create a new span (name, kind, parent and trace id are those of
the span they were given). -/
theorem classifier_idempotent (c : Nat) (span : Span) :
    onResponse c (onResponse c span) = onResponse c span
    ∧ onFailure (onFailure span) = onFailure span
    ∧ (onResponse c span).attrs.map Prod.fst = span.attrs.map Prod.fst
    ∧ (onFailure span).attrs.map Prod.fst = span.attrs.map Prod.fst
    ∧ (onResponse c span).name = span.name
    ∧ (onResponse c span).kind = span.kind
    ∧ (onResponse c span).parent = span.parent
    ∧ (onResponse c span).traceId = span.traceId
    ∧ (onFailure span).name = span.name
    ∧ (onFailure span).kind = span.kind
    ∧ (onFailure span).parent = span.parent
    ∧ (onFailure span).traceId = span.traceId := by
  refine ⟨?_, ?_, ?_, ?_, rfl, rfl, rfl, rfl, rfl, rfl, rfl, rfl⟩
  · obtain ⟨n, k, a, p, t⟩ := span
    simp only [onResponse, record]
    congr 1
    rw [update_update_comm _ HTTP_RESPONSE_STATUS_CODE OTEL_STATUS_CODE _ _ (by decide),
      update_update_self, update_update_self]
  · obtain ⟨n, k, a, p, t⟩ := span
    simp only [onFailure, record]
    congr 1
    rw [update_update_self]
  · simp only [onResponse, record]
    rw [keys_update, keys_update]
  · simp only [onFailure, record]
    rw [keys_update]

/-- C10: in the `trace_layer` module every Server-kind span records a
full-URL attribute at creation whose value is only the request's path —
the same value as the route attribute — while the sibling implementation
in `lib.rs` records no full-URL attribute on Server-kind spans at all. -/
theorem urlFull_attribute_divergence (freshTraceId : Nat) (request : HttpRequest) :
    List.lookup URL_FULL (makeSpan .server freshTraceId request).attrs
      = some (some (.str request.path))
    ∧ List.lookup URL_FULL (makeSpan .server freshTraceId request).attrs
        = List.lookup HTTP_ROUTE (makeSpan .server freshTraceId request).attrs
    ∧ List.lookup URL_FULL (TelemetryLib.makeSpan .server freshTraceId request).attrs
      = none := by
  refine ⟨?_, ?_, ?_⟩
  · rw [attrs_makeSpan_server]
    rfl
  · rw [attrs_makeSpan_server]
    rfl
  · rw [TelemetryLib.lib_attrs_makeSpan_server]
    rfl
